import Mathlib

/-!
Shallow embedding of the secure-channel core of the CPP-SMTPClient-library
repository, translated from `src/src/securesmtpclientbase.cpp`
(class `SecureSMTPClientBase`).

Modelling conventions:
- The OpenSSL handles `mCTX` (SSL context), `mBIO` (BIO/session object,
  written `mBio` here) and `mSSL` (SSL handle derived from the BIO) are
  modelled as `Option Nat`: `none` is the C++ null pointer, `some h` is a
  live handle with identity `h`.
- The socket `mSock` is a `Nat`; `0` is the "not connected" sentinel used
  by the code.
- Calls into the platform (OpenSSL, the OS socket layer, the Windows
  certificate store) are modelled by an environment record holding the
  results those calls would return, and by an output trace of events
  recording which external operations were performed.
- Release side effects (`SSL_CTX_free`, `BIO_free_all`, `close`/
  `closesocket`) are recorded as `ReleaseOp` values so that properties
  about double-release can be stated.  The Windows-only
  `shutdown`+`closesocket` pair and `WSACleanup` are folded into the
  single `closeSocket` release, which is all the claims need.
-/

/-- A resource-release side effect performed against the platform layer:
`SSL_CTX_free` on a context handle, `BIO_free_all` on a BIO handle, or the
close of a socket descriptor. -/
inductive ReleaseOp where
  | freeCTX : Nat → ReleaseOp
  | freeBio : Nat → ReleaseOp
  | closeSocket : Nat → ReleaseOp
  deriving DecidableEq, Repr

/-- The fields of `SecureSMTPClientBase` relevant to the secure core: the
three OpenSSL handles declared by the class itself, plus the inherited
fields it reads and writes (`mSock`, `mLastServerResponse`,
`mLastSocketErrNo`, `mCommandTimeOut`).  The last server response is kept
as a list of characters, matching the C character buffer. -/
structure SecureState where
  mBio : Option Nat
  mCTX : Option Nat
  mSSL : Option Nat
  mSock : Nat
  mLastServerResponse : List Char
  mLastSocketErrNo : Int
  mCommandTimeOut : Nat
  deriving DecidableEq, Repr

/-- Translation of `SecureSMTPClientBase::cleanup()`: free the context if
non-null and null it, free the BIO if non-null and null it, close the
socket if it is not the `0` sentinel and reset it to `0`, and null the
derived SSL handle.  Returns the new state together with the list of
release operations actually performed. -/
def cleanup (s : SecureState) : SecureState × List ReleaseOp :=
  let ctxOps := match s.mCTX with
    | some h => [ReleaseOp.freeCTX h]
    | none => []
  let bioOps := match s.mBio with
    | some h => [ReleaseOp.freeBio h]
    | none => []
  let sockOps := if s.mSock ≠ 0 then [ReleaseOp.closeSocket s.mSock] else []
  ({ s with mCTX := none, mBio := none, mSock := 0, mSSL := none },
   ctxOps ++ bioOps ++ sockOps)

/-- All secure-session resources of a state are released/reset: null
context, null BIO, null SSL handle, socket at the `0` sentinel. -/
def handlesCleared (s : SecureState) : Prop :=
  s.mCTX = none ∧ s.mBio = none ∧ s.mSSL = none ∧ s.mSock = 0

/-- Translation of the copy constructor
`SecureSMTPClientBase(const SecureSMTPClientBase&)`: the base-class
subobject is copy-constructed from the source (the base class is outside
these sources, so its fields are modelled as copied verbatim) and the
three handles are initialised to null. -/
def copyConstruct (src : SecureState) : SecureState :=
  { src with mBio := none, mCTX := none, mSSL := none }

/-- Translation of the copy assignment operator
`operator=(const SecureSMTPClientBase&)`.  The `selfAssign` flag models
the identity test `this != &other`: on self-assignment nothing happens;
otherwise the base is copy-assigned and the three handles are nulled. -/
def copyAssign (selfAssign : Bool) (dst src : SecureState) : SecureState :=
  if selfAssign then dst
  else { src with mBio := none, mCTX := none, mSSL := none }

/-- Translation of the move constructor
`SecureSMTPClientBase(SecureSMTPClientBase&&)`: the destination takes the
source's base fields and its three handles, and the source's three
handles are then nulled so its destructor frees nothing.  Returns
(destination, source-after-move). -/
def moveConstruct (src : SecureState) : SecureState × SecureState :=
  (src, { src with mBio := none, mCTX := none, mSSL := none })

/-- Translation of the move assignment operator
`operator=(SecureSMTPClientBase&&)`.  The `selfAssign` flag models
`this != &other`: on self-move nothing happens; otherwise the destination
takes the source's fields and handles and the source's handles are
nulled.  Returns (destination, source-after-move). -/
def moveAssign (selfAssign : Bool) (dst src : SecureState) :
    SecureState × SecureState :=
  if selfAssign then (dst, src)
  else (src, { src with mBio := none, mCTX := none, mSSL := none })

/-- Whether a release operation frees one of the two heap TLS handles
(the context or the BIO/session); socket closes are not handle frees. -/
def freesTLSHandle : ReleaseOp → Bool
  | ReleaseOp.freeCTX _ => true
  | ReleaseOp.freeBio _ => true
  | ReleaseOp.closeSocket _ => false

/-- C5: `cleanup()` is idempotent: from any starting state, after one call
all handles are empty (context and BIO and SSL null, socket at the `0`
sentinel), a second call leaves the state unchanged, and the second call
performs no release operation at all (in particular no double close of
the socket). -/
theorem cleanup_idempotent (s : SecureState) :
    (cleanup (cleanup s).1).1 = (cleanup s).1 ∧
    (cleanup (cleanup s).1).2 = [] ∧
    (cleanup s).1.mCTX = none ∧ (cleanup s).1.mBio = none ∧
    (cleanup s).1.mSSL = none ∧ (cleanup s).1.mSock = 0 := by
  simp [cleanup]

/-- C6: after a move construction or a move assignment between distinct
objects, the destination holds exactly the three handles the source held,
the moved-from source's three handles are null, and a subsequent
`cleanup()` (hence also destruction) of the source performs no free of a
TLS handle. -/
theorem move_transfers_handles (dst src : SecureState) (selfAssign : Bool)
    (h : selfAssign = false) :
    ((moveConstruct src).1.mCTX = src.mCTX ∧
     (moveConstruct src).1.mBio = src.mBio ∧
     (moveConstruct src).1.mSSL = src.mSSL ∧
     (moveConstruct src).2.mCTX = none ∧
     (moveConstruct src).2.mBio = none ∧
     (moveConstruct src).2.mSSL = none ∧
     (cleanup (moveConstruct src).2).2.all (fun op => !freesTLSHandle op) = true) ∧
    ((moveAssign selfAssign dst src).1.mCTX = src.mCTX ∧
     (moveAssign selfAssign dst src).1.mBio = src.mBio ∧
     (moveAssign selfAssign dst src).1.mSSL = src.mSSL ∧
     (moveAssign selfAssign dst src).2.mCTX = none ∧
     (moveAssign selfAssign dst src).2.mBio = none ∧
     (moveAssign selfAssign dst src).2.mSSL = none ∧
     (cleanup (moveAssign selfAssign dst src).2).2.all
       (fun op => !freesTLSHandle op) = true) := by
  subst h
  constructor
  · refine ⟨rfl, rfl, rfl, rfl, rfl, rfl, ?_⟩
    simp [cleanup, moveConstruct, freesTLSHandle]
  · refine ⟨rfl, rfl, rfl, rfl, rfl, rfl, ?_⟩
    simp [cleanup, moveAssign, freesTLSHandle]

/-- Concrete instantiation of `move_transfers_handles`: moving from a
state with all three handles live and an open socket transfers the
handles and leaves the source unable to free them. -/
theorem move_transfers_handles_witness :
    (let src : SecureState :=
      { mBio := some 2, mCTX := some 1, mSSL := some 3, mSock := 4,
        mLastServerResponse := [], mLastSocketErrNo := 0,
        mCommandTimeOut := 30 }
     ((moveConstruct src).1.mCTX = src.mCTX ∧
      (moveConstruct src).1.mBio = src.mBio ∧
      (moveConstruct src).1.mSSL = src.mSSL ∧
      (moveConstruct src).2.mCTX = none ∧
      (moveConstruct src).2.mBio = none ∧
      (moveConstruct src).2.mSSL = none ∧
      (cleanup (moveConstruct src).2).2.all
        (fun op => !freesTLSHandle op) = true) ∧
     ((moveAssign false src src).1.mCTX = src.mCTX ∧
      (moveAssign false src src).1.mBio = src.mBio ∧
      (moveAssign false src src).1.mSSL = src.mSSL ∧
      (moveAssign false src src).2.mCTX = none ∧
      (moveAssign false src src).2.mBio = none ∧
      (moveAssign false src src).2.mSSL = none ∧
      (cleanup (moveAssign false src src).2).2.all
        (fun op => !freesTLSHandle op) = true)) :=
  move_transfers_handles _ _ false rfl

/-- C7: a copy-constructed object, and a copy-assigned object when the
source is a distinct object, holds no live secure-session handle: its
context, BIO and SSL handles are all null after the copy, whatever the
source held. -/
theorem copy_yields_no_live_handles (dst src : SecureState)
    (selfAssign : Bool) (h : selfAssign = false) :
    (copyConstruct src).mCTX = none ∧ (copyConstruct src).mBio = none ∧
    (copyConstruct src).mSSL = none ∧
    (copyAssign selfAssign dst src).mCTX = none ∧
    (copyAssign selfAssign dst src).mBio = none ∧
    (copyAssign selfAssign dst src).mSSL = none := by
  subst h
  exact ⟨rfl, rfl, rfl, rfl, rfl, rfl⟩

/-- Concrete instantiation of `copy_yields_no_live_handles`: copying from
a state with all three handles live yields an object with all three
handles null. -/
theorem copy_yields_no_live_handles_witness :
    (let src : SecureState :=
      { mBio := some 2, mCTX := some 1, mSSL := some 3, mSock := 4,
        mLastServerResponse := [], mLastSocketErrNo := 0,
        mCommandTimeOut := 30 }
     (copyConstruct src).mCTX = none ∧ (copyConstruct src).mBio = none ∧
     (copyConstruct src).mSSL = none ∧
     (copyAssign false src src).mCTX = none ∧
     (copyAssign false src src).mBio = none ∧
     (copyAssign false src src).mSSL = none) :=
  copy_yields_no_live_handles _ _ false rfl

/-- The result of `startTLSNegotiation`, one constructor per distinct
return: `ok` is the integer `0` success return, the others are the
distinct `SSL_CLIENT_STARTTLS_*` error constants from `sslerrors.h`
(a header outside these sources; only distinctness of the codes is
used). -/
inductive TLSResult where
  | ok
  | initSSLCtxError
  | bioNewSslConnectError
  | winCertOpenSystemStoreError
  | ctxSetDefaultVerifyPathsError
  | bioConnectError
  | bioHandshakeError
  | getCertificateError
  | verifyResultError
  deriving DecidableEq, Repr

/-- The two build-time platform variants of the trust-store provisioning
block (`#ifdef _WIN32`). -/
inductive Platform where
  | windows
  | posix
  deriving DecidableEq, Repr

/-- The externally observable stages of `startTLSNegotiation`, recorded
in the trace when the corresponding platform call is performed. -/
inductive TLSStage where
  | initCtx
  | bioNew
  | bindSession
  | trustStore
  | connect
  | handshake
  | certCheck
  | verifyCheck
  deriving DecidableEq, Repr

/-- The communication-log lines emitted via `addCommunicationLogItem`
and `fprintf(stderr, ...)` during `startTLSNegotiation`. -/
inductive LogMsg where
  | startTLS
  | negotiateSession
  | checkResult
  | sessionReady
  deriving DecidableEq, Repr

/-- One observable event of a `startTLSNegotiation` run: a log line, a
performed stage, the advisory pre-handshake verification warning printed
to stderr (with the non-OK verification value), or a resource release. -/
inductive TLSEvent where
  | log : LogMsg → TLSEvent
  | stage : TLSStage → TLSEvent
  | warnPreVerify : Int → TLSEvent
  | release : ReleaseOp → TLSEvent
  deriving DecidableEq, Repr

/-- The results the platform calls made by `startTLSNegotiation` would
return: `SSL_CTX_new` (`ctxAlloc`, `none` = null), the library error code
captured on allocation failure, `BIO_new_ssl_connect` (`bioAlloc`),
the SSL handle written by `BIO_get_ssl`, the platform variant, the
outcome of `CertOpenSystemStore` (Windows) or
`SSL_CTX_set_default_verify_paths` (POSIX), the pre-handshake
`SSL_get_verify_result` value, the outcomes and captured error codes of
`BIO_do_connect` and `BIO_do_handshake`, whether
`SSL_get_peer_certificate` returns a certificate, and the final
`SSL_get_verify_result` value. -/
structure TLSEnv where
  ctxAlloc : Option Nat
  ctxAllocErr : Int
  bioAlloc : Option Nat
  sslHandle : Nat
  platform : Platform
  storeOpenOk : Bool
  storeOpenErr : Int
  defaultVerifyPathsOk : Bool
  preVerifyResult : Int
  connectOk : Bool
  connectErr : Int
  handshakeOk : Bool
  handshakeErr : Int
  certPresent : Bool
  finalVerifyResult : Int
  deriving DecidableEq, Repr

/-- The OpenSSL constant `X509_V_OK` (successful verification). -/
def X509_V_OK : Int := 0

/-- The part of `startTLSNegotiation` after trust-store provisioning:
the advisory `SSL_get_verify_result` pre-check (warning only), then
`BIO_do_connect`, `BIO_do_handshake`, the peer-certificate presence
check, and the final chain-verification check; each of those four
failures runs `cleanup()` before returning its error code. -/
def tlsAfterTrust (env : TLSEnv) (s : SecureState) (ev : List TLSEvent) :
    TLSResult × SecureState × List TLSEvent :=
  let evWarn := ev ++ (if env.preVerifyResult ≠ X509_V_OK
    then [TLSEvent.warnPreVerify env.preVerifyResult] else [])
  let ev1 := evWarn ++ [TLSEvent.stage TLSStage.connect]
  if env.connectOk = false then
    let c := cleanup s
    (TLSResult.bioConnectError,
     { c.1 with mLastSocketErrNo := env.connectErr },
     ev1 ++ c.2.map TLSEvent.release)
  else
    let ev2 := ev1 ++ [TLSEvent.log LogMsg.negotiateSession,
                       TLSEvent.stage TLSStage.handshake]
    if env.handshakeOk = false then
      let c := cleanup s
      (TLSResult.bioHandshakeError,
       { c.1 with mLastSocketErrNo := env.handshakeErr },
       ev2 ++ c.2.map TLSEvent.release)
    else
      let ev3 := ev2 ++ [TLSEvent.log LogMsg.checkResult,
                         TLSEvent.stage TLSStage.certCheck]
      if env.certPresent = false then
        let c := cleanup s
        (TLSResult.getCertificateError, c.1, ev3 ++ c.2.map TLSEvent.release)
      else
        let ev4 := ev3 ++ [TLSEvent.stage TLSStage.verifyCheck]
        if env.finalVerifyResult ≠ X509_V_OK then
          let c := cleanup s
          (TLSResult.verifyResultError, c.1, ev4 ++ c.2.map TLSEvent.release)
        else
          (TLSResult.ok, s, ev4 ++ [TLSEvent.log LogMsg.sessionReady])

/-- Translation of `SecureSMTPClientBase::startTLSNegotiation()` (which
begins by calling `initializeSSLContext()`): create the context (null →
`INITSSLCTX_ERROR`, capturing the library error, with no cleanup),
create the BIO (null → `BIONEWSSLCONNECT_ERROR`, no cleanup), bind the
SSL handle and the connection target, provision the trust store (Windows:
`CertOpenSystemStore` failure → `WIN_CERTOPENSYSTEMSTORE_ERROR`, no
cleanup; unparseable store entries are skipped and do not fail; POSIX:
`SSL_CTX_set_default_verify_paths` failure →
`CTX_SET_DEFAULT_VERIFY_PATHS_ERROR`, no cleanup), then continue with
`tlsAfterTrust`.  Returns (result, final state, event trace). -/
def startTLSNegotiation (env : TLSEnv) (s : SecureState) :
    TLSResult × SecureState × List TLSEvent :=
  let ev0 := [TLSEvent.log LogMsg.startTLS, TLSEvent.stage TLSStage.initCtx]
  match env.ctxAlloc with
  | none =>
      (TLSResult.initSSLCtxError,
       { s with mCTX := none, mLastSocketErrNo := env.ctxAllocErr }, ev0)
  | some ctx =>
    let s1 := { s with mCTX := some ctx }
    let ev1 := ev0 ++ [TLSEvent.stage TLSStage.bioNew]
    match env.bioAlloc with
    | none => (TLSResult.bioNewSslConnectError, s1, ev1)
    | some bio =>
      let s2 := { s1 with mBio := some bio, mSSL := some env.sslHandle }
      let ev2 := ev1 ++ [TLSEvent.stage TLSStage.bindSession,
                         TLSEvent.stage TLSStage.trustStore]
      match env.platform with
      | Platform.windows =>
        if env.storeOpenOk = false then
          (TLSResult.winCertOpenSystemStoreError,
           { s2 with mLastSocketErrNo := env.storeOpenErr }, ev2)
        else tlsAfterTrust env s2 ev2
      | Platform.posix =>
        if env.defaultVerifyPathsOk = false then
          (TLSResult.ctxSetDefaultVerifyPathsError, s2, ev2)
        else tlsAfterTrust env s2 ev2

/-- Trust-store provisioning succeeds in the given environment (the
platform-appropriate call does not fail). -/
def trustOk (env : TLSEnv) : Prop :=
  (env.platform = Platform.windows → env.storeOpenOk = true) ∧
  (env.platform = Platform.posix → env.defaultVerifyPathsOk = true)

/-- None of the post-trust handshake stages (transport connect, TLS
handshake, peer-certificate presence check, chain-verification check)
occurs in the trace. -/
def noLateStage (tr : List TLSEvent) : Prop :=
  TLSEvent.stage TLSStage.connect ∉ tr ∧
  TLSEvent.stage TLSStage.handshake ∉ tr ∧
  TLSEvent.stage TLSStage.certCheck ∉ tr ∧
  TLSEvent.stage TLSStage.verifyCheck ∉ tr

/-- Erase the advisory pre-handshake verification warnings from a trace,
keeping every other event. -/
def dropWarn (tr : List TLSEvent) : List TLSEvent :=
  tr.filter (fun e => match e with
    | TLSEvent.warnPreVerify _ => false
    | _ => true)

/-- Read a list of decimal digit characters as a natural number;
any non-digit character makes the whole token malformed. -/
def parseDigits : List Char → Nat → Option Nat
  | [], acc => some acc
  | c :: rest, acc =>
      if c.isDigit then parseDigits rest (acc * 10 + (c.toNat - 48))
      else none

/-- Modelled from the spec: `extractReturnCode` belongs to the plaintext
base client (`SMTPClientBase`), whose implementation is not among these
sources.  Spec section 6 describes it as parsing "an SMTP reply line's
leading status code" and section 4.4 as interpreting "the first
whitespace-delimited token of the response ... as an integer SMTP reply
code; malformed leading tokens are an open question".  A malformed or
empty leading token is mapped to `-1` here as a representative of that
unspecified case; no claim depends on it. -/
def extractReturnCode (resp : List Char) : Int :=
  match resp.takeWhile (fun c => !c.isWhitespace) with
  | [] => -1
  | tok =>
      match parseDigits tok 0 with
      | some n => Int.ofNat n
      | none => -1

/-- The results of the platform calls made by the command channel:
whether `BIO_puts` succeeds (returns non-negative), the library error
captured on write failure, and for each polling attempt `i` the data the
`i`-th `BIO_read` call deposits in the buffer (the empty list models both
a zero and a negative `BIO_read` return, which the loop treats alike). -/
structure CommandEnv where
  writeOk : Bool
  writeErr : Int
  reads : Nat → List Char

/-- Helper for `pollRead`, structurally recursive on the remaining
budget `fuel = timeout - waitTime`: while `fuel` is positive (i.e.
`waitTime < timeout`) and the current read yields no data, sleep and move
to the next second; stop as soon as data arrives or the fuel runs out. -/
def pollReadAux (reads : Nat → List Char) : Nat → Nat → Nat
  | waitTime, fuel + 1 =>
      if (reads waitTime).length = 0 then pollReadAux reads (waitTime + 1) fuel
      else waitTime
  | waitTime, 0 => waitTime

/-- Translation of the polling loop of `sendCommandWithFeedback`:
`while ((bytes_received = BIO_read(...)) <= 0 && waitTime < mCommandTimeOut)
 { sleep(1); waitTime += 1; }`.
The read attempt evaluated at elapsed time `w` is `reads w`, since
`waitTime` is incremented once per iteration; the loop guard
`waitTime < timeout` holds exactly while the remaining budget
`timeout - waitTime` is positive.  Returns the final value of
`waitTime`, which also equals the number of one-second sleeps performed. -/
def pollRead (reads : Nat → List Char) (timeout waitTime : Nat) : Nat :=
  pollReadAux reads waitTime (timeout - waitTime)

/-- Translation of `SecureSMTPClientBase::sendCommand`: on a negative
`BIO_puts` result, capture the library error, run `cleanup()` and return
the caller-supplied error code; otherwise return `0`.  Returns
(code, state, release operations performed). -/
def sendCommand (env : CommandEnv) (pErrorCode : Int) (s : SecureState) :
    Int × SecureState × List ReleaseOp :=
  if env.writeOk = false then
    let c := cleanup { s with mLastSocketErrNo := env.writeErr }
    (pErrorCode, c.1, c.2)
  else (0, s, [])

/-- Translation of `SecureSMTPClientBase::sendCommandWithFeedback`: write
the command (failure → capture error, `cleanup()`, return `pErrorCode`);
poll with `pollRead`; if the loop left `waitTime < mCommandTimeOut` (so
the last read produced data), overwrite the buffer byte at index
`bytes_received - 1` with the terminator — i.e. keep the first
`length - 1` characters — store that as the last server response and
return its extracted return code; otherwise run `cleanup()` and return
`pTimeoutCode`.  Returns (code, state, sleeps performed, release
operations performed). -/
def sendCommandWithFeedback (env : CommandEnv) (pErrorCode pTimeoutCode : Int)
    (s : SecureState) : Int × SecureState × Nat × List ReleaseOp :=
  if env.writeOk = false then
    let c := cleanup { s with mLastSocketErrNo := env.writeErr }
    (pErrorCode, c.1, 0, c.2)
  else
    let w := pollRead env.reads s.mCommandTimeOut 0
    if w < s.mCommandTimeOut then
      let buf := env.reads w
      let resp := buf.take (buf.length - 1)
      (extractReturnCode resp, { s with mLastServerResponse := resp }, w, [])
    else
      let c := cleanup s
      (pTimeoutCode, c.1, w, c.2)

/-- If every read attempt in the fuel window yields no data, the loop
consumes all the fuel. -/
theorem pollReadAux_all_empty (reads : Nat → List Char) (fuel : Nat) :
    ∀ w, (∀ i, i < w + fuel → reads i = []) →
      pollReadAux reads w fuel = w + fuel := by
  induction fuel with
  | zero => intro w _; rfl
  | succ n ih =>
      intro w hr
      have hw : reads w = [] := hr w (by omega)
      have : pollReadAux reads w (n + 1) = pollReadAux reads (w + 1) n := by
        simp [pollReadAux, hw]
      rw [this, ih (w + 1) (fun i hi => hr i (by omega))]
      omega

/-- If every read attempt strictly before the budget yields no data, the
polling loop runs until `waitTime` reaches the budget and stops there,
whatever the read at the budget boundary yields. -/
theorem pollRead_empty_below (reads : Nat → List Char) (timeout w : Nat)
    (hr : ∀ i, i < timeout → reads i = []) (hw : w ≤ timeout) :
    pollRead reads timeout w = timeout := by
  rw [pollRead, pollReadAux_all_empty reads (timeout - w) w
    (fun i hi => hr i (by omega))]
  omega

/-- If the polling loop stops before consuming all its fuel, the read at
the stopping time yielded data (a non-empty buffer). -/
theorem pollReadAux_ne_imp_data (reads : Nat → List Char) (fuel : Nat) :
    ∀ w, pollReadAux reads w fuel ≠ w + fuel →
      (reads (pollReadAux reads w fuel)).length ≠ 0 := by
  induction fuel with
  | zero => intro w hne; exact absurd rfl hne
  | succ n ih =>
      intro w hne
      by_cases hw : (reads w).length = 0
      · have heq : pollReadAux reads w (n + 1) = pollReadAux reads (w + 1) n := by
          simp [pollReadAux, hw]
        rw [heq] at hne ⊢
        exact ih (w + 1) (fun hc => hne (by rw [hc]; omega))
      · have heq : pollReadAux reads w (n + 1) = w := by
          simp [pollReadAux, hw]
        rw [heq]
        exact hw

/-- If the polling loop stops strictly below the budget, the read at the
stopping time yielded data (a non-empty buffer). -/
theorem pollRead_lt_imp_data (reads : Nat → List Char) (timeout w : Nat)
    (hle : w ≤ timeout) (hlt : pollRead reads timeout w < timeout) :
    (reads (pollRead reads timeout w)).length ≠ 0 := by
  rw [pollRead] at hlt ⊢
  exact pollReadAux_ne_imp_data reads (timeout - w) w (by omega)

theorem dropWarn_append (a b : List TLSEvent) :
    dropWarn (a ++ b) = dropWarn a ++ dropWarn b := by
  simp [dropWarn, List.filter_append]

theorem dropWarn_warnOpt (c : Prop) [Decidable c] (v : Int) :
    dropWarn (if c then [TLSEvent.warnPreVerify v] else []) = [] := by
  split <;> simp [dropWarn]

/-- The post-trust part of the negotiation ends either in success or in a
state with every secure resource released. -/
theorem tlsAfterTrust_ok_or_cleared (env : TLSEnv) (s : SecureState)
    (ev : List TLSEvent) :
    (tlsAfterTrust env s ev).1 = TLSResult.ok ∨
    handlesCleared (tlsAfterTrust env s ev).2.1 := by
  rw [tlsAfterTrust]
  split_ifs <;> simp [cleanup, handlesCleared]

/-- A non-success result of the post-trust part always comes with every
secure resource released. -/
theorem tlsAfterTrust_fail_cleared (env : TLSEnv) (s : SecureState)
    (ev : List TLSEvent) (h : (tlsAfterTrust env s ev).1 ≠ TLSResult.ok) :
    handlesCleared (tlsAfterTrust env s ev).2.1 :=
  (tlsAfterTrust_ok_or_cleared env s ev).resolve_left h

/-- The pre-handshake verification value influences neither the result
nor the final state nor the warning-free trace of the post-trust part. -/
theorem tlsAfterTrust_preVerify_free (env : TLSEnv) (s : SecureState)
    (ev : List TLSEvent) (v : Int) :
    (tlsAfterTrust { env with preVerifyResult := v } s ev).1 =
      (tlsAfterTrust env s ev).1 ∧
    (tlsAfterTrust { env with preVerifyResult := v } s ev).2.1 =
      (tlsAfterTrust env s ev).2.1 ∧
    dropWarn (tlsAfterTrust { env with preVerifyResult := v } s ev).2.2 =
      dropWarn (tlsAfterTrust env s ev).2.2 := by
  rw [tlsAfterTrust, tlsAfterTrust]
  simp only []
  split_ifs <;>
    simp [dropWarn_append, dropWarn_warnOpt, dropWarn]

/-- The pre-handshake verification value influences neither the result
nor the final state nor the warning-free trace of the whole
negotiation. -/
theorem startTLS_preVerify_free (env : TLSEnv) (s : SecureState) (v : Int) :
    (startTLSNegotiation { env with preVerifyResult := v } s).1 =
      (startTLSNegotiation env s).1 ∧
    (startTLSNegotiation { env with preVerifyResult := v } s).2.1 =
      (startTLSNegotiation env s).2.1 ∧
    dropWarn (startTLSNegotiation { env with preVerifyResult := v } s).2.2 =
      dropWarn (startTLSNegotiation env s).2.2 := by
  rw [startTLSNegotiation, startTLSNegotiation]
  rcases hc : env.ctxAlloc with _ | ctx
  · simp [hc]
  · rcases hb : env.bioAlloc with _ | bio
    · simp [hc, hb]
    · rcases hp : env.platform with _ | _
      · simp only [hc, hb, hp]
        split_ifs
        · simp
        · exact tlsAfterTrust_preVerify_free env _ _ v
      · simp only [hc, hb, hp]
        split_ifs
        · simp
        · exact tlsAfterTrust_preVerify_free env _ _ v

/-- C9: the pre-handshake verification check is advisory only: two runs
of `startTLSNegotiation` that differ only in the pre-handshake
`SSL_get_verify_result` value return the same code, produce the same
final state, and perform the same stages and releases and log lines —
their traces agree once the stderr warning entries are erased. -/
theorem preverify_check_is_advisory (env : TLSEnv) (s : SecureState)
    (v w : Int) :
    (startTLSNegotiation { env with preVerifyResult := v } s).1 =
      (startTLSNegotiation { env with preVerifyResult := w } s).1 ∧
    (startTLSNegotiation { env with preVerifyResult := v } s).2.1 =
      (startTLSNegotiation { env with preVerifyResult := w } s).2.1 ∧
    dropWarn (startTLSNegotiation { env with preVerifyResult := v } s).2.2 =
      dropWarn (startTLSNegotiation { env with preVerifyResult := w } s).2.2 := by
  obtain ⟨hv1, hv2, hv3⟩ := startTLS_preVerify_free env s v
  obtain ⟨hw1, hw2, hw3⟩ := startTLS_preVerify_free env s w
  exact ⟨hv1.trans hw1.symm, hv2.trans hw2.symm, hv3.trans hw3.symm⟩

/-- C8: when trust-store provisioning fails — `CertOpenSystemStore`
returning null on Windows, `SSL_CTX_set_default_verify_paths` returning
`0` on POSIX — `startTLSNegotiation` returns the corresponding store
error code, and no later handshake stage (transport connect, TLS
handshake, peer-certificate check, chain-verification check) is ever
executed. -/
theorem trust_failure_prevents_later_stages (env : TLSEnv) (s : SecureState)
    (hctx : env.ctxAlloc.isSome = true) (hbio : env.bioAlloc.isSome = true) :
    (env.platform = Platform.windows → env.storeOpenOk = false →
      (startTLSNegotiation env s).1 = TLSResult.winCertOpenSystemStoreError ∧
      noLateStage (startTLSNegotiation env s).2.2) ∧
    (env.platform = Platform.posix → env.defaultVerifyPathsOk = false →
      (startTLSNegotiation env s).1 = TLSResult.ctxSetDefaultVerifyPathsError ∧
      noLateStage (startTLSNegotiation env s).2.2) := by
  obtain ⟨ctx, hc⟩ := Option.isSome_iff_exists.mp hctx
  obtain ⟨bio, hb⟩ := Option.isSome_iff_exists.mp hbio
  constructor
  · intro hp hfail
    simp [startTLSNegotiation, hc, hb, hp, hfail, noLateStage]
  · intro hp hfail
    simp [startTLSNegotiation, hc, hb, hp, hfail, noLateStage]

/-- C2: reaching the certificate checks (allocations, trust provisioning,
connect and handshake all succeed), `startTLSNegotiation` returns `0`
exactly when a peer certificate was presented and the final
`SSL_get_verify_result` is `X509_V_OK`; an absent certificate yields
`GET_CERTIFICATE_ERROR` and a non-OK verification result yields
`VERIFY_RESULT_ERROR`, and in either failure case the final state holds
no live context, BIO or SSL handle and the socket is reset to the `0`
sentinel. -/
theorem startTLS_success_requires_cert_and_verify (env : TLSEnv)
    (s : SecureState) (hctx : env.ctxAlloc.isSome = true)
    (hbio : env.bioAlloc.isSome = true) (htrust : trustOk env)
    (hconn : env.connectOk = true) (hhs : env.handshakeOk = true) :
    ((startTLSNegotiation env s).1 = TLSResult.ok ↔
      env.certPresent = true ∧ env.finalVerifyResult = X509_V_OK) ∧
    (env.certPresent = false →
      (startTLSNegotiation env s).1 = TLSResult.getCertificateError ∧
      handlesCleared (startTLSNegotiation env s).2.1) ∧
    (env.certPresent = true → env.finalVerifyResult ≠ X509_V_OK →
      (startTLSNegotiation env s).1 = TLSResult.verifyResultError ∧
      handlesCleared (startTLSNegotiation env s).2.1) := by
  obtain ⟨ctx, hc⟩ := Option.isSome_iff_exists.mp hctx
  obtain ⟨bio, hb⟩ := Option.isSome_iff_exists.mp hbio
  have hmain : ∀ ev s2, ((tlsAfterTrust env s2 ev).1 = TLSResult.ok ↔
      env.certPresent = true ∧ env.finalVerifyResult = X509_V_OK) ∧
      (env.certPresent = false →
        (tlsAfterTrust env s2 ev).1 = TLSResult.getCertificateError ∧
        handlesCleared (tlsAfterTrust env s2 ev).2.1) ∧
      (env.certPresent = true → env.finalVerifyResult ≠ X509_V_OK →
        (tlsAfterTrust env s2 ev).1 = TLSResult.verifyResultError ∧
        handlesCleared (tlsAfterTrust env s2 ev).2.1) := by
    intro ev s2
    rcases hcert : env.certPresent with _ | _
    · simp [tlsAfterTrust, hconn, hhs, hcert, cleanup, handlesCleared]
    · by_cases hver : env.finalVerifyResult = X509_V_OK
      · simp [tlsAfterTrust, hconn, hhs, hcert, hver]
      · simp [tlsAfterTrust, hconn, hhs, hcert, hver, cleanup, handlesCleared]
  rcases hp : env.platform with _ | _
  · have hstore := htrust.1 hp
    simp only [startTLSNegotiation, hc, hb, hp, hstore]
    simpa using hmain _ _
  · have hpaths := htrust.2 hp
    simp only [startTLSNegotiation, hc, hb, hp, hpaths]
    simpa using hmain _ _

/-- A connection state as it stands right before STARTTLS: no TLS
resources yet, an open plaintext socket (descriptor 5), a 3-second
command timeout. -/
def preTLSState : SecureState :=
  { mBio := none, mCTX := none, mSSL := none, mSock := 5,
    mLastServerResponse := [], mLastSocketErrNo := 0, mCommandTimeOut := 3 }

/-- An environment in which `SSL_CTX_new` succeeds (handle 1) but
`BIO_new_ssl_connect` returns null. -/
def bioAllocFailEnv : TLSEnv :=
  { ctxAlloc := some 1, ctxAllocErr := 0, bioAlloc := none, sslHandle := 3,
    platform := Platform.posix, storeOpenOk := true, storeOpenErr := 0,
    defaultVerifyPathsOk := true, preVerifyResult := 0, connectOk := true,
    connectErr := 0, handshakeOk := true, handshakeErr := 0,
    certPresent := true, finalVerifyResult := 0 }

/-- C1 fails as stated: when `BIO_new_ssl_connect` fails,
`startTLSNegotiation` returns `BIONEWSSLCONNECT_ERROR` with no teardown —
the freshly allocated TLS context (handle 1) is still live and the
socket (descriptor 5) is still open after the error return. -/
theorem startTLS_early_failure_skips_teardown_cex :
    (startTLSNegotiation bioAllocFailEnv preTLSState).1 =
      TLSResult.bioNewSslConnectError ∧
    (startTLSNegotiation bioAllocFailEnv preTLSState).2.1.mCTX = some 1 ∧
    (startTLSNegotiation bioAllocFailEnv preTLSState).2.1.mSock = 5 := by
  decide

/-- C1 as amended: full teardown before the error return holds for the
four post-trust failures of `startTLSNegotiation` (transport connect,
TLS handshake, missing peer certificate, chain-verification failure) and
for write failures and timeouts in `sendCommand` and
`sendCommandWithFeedback`; the context-allocation, session-allocation
and trust-store failures return without teardown (see the
counterexample). -/
theorem failure_teardown_amended (env : TLSEnv) (cenv : CommandEnv)
    (pErr pTo : Int) (s : SecureState) :
    ((startTLSNegotiation env s).1 = TLSResult.bioConnectError ∨
     (startTLSNegotiation env s).1 = TLSResult.bioHandshakeError ∨
     (startTLSNegotiation env s).1 = TLSResult.getCertificateError ∨
     (startTLSNegotiation env s).1 = TLSResult.verifyResultError →
      handlesCleared (startTLSNegotiation env s).2.1) ∧
    (cenv.writeOk = false →
      handlesCleared (sendCommand cenv pErr s).2.1 ∧
      handlesCleared (sendCommandWithFeedback cenv pErr pTo s).2.1) ∧
    (cenv.writeOk = true →
      s.mCommandTimeOut ≤ pollRead cenv.reads s.mCommandTimeOut 0 →
      handlesCleared (sendCommandWithFeedback cenv pErr pTo s).2.1) := by
  refine ⟨?_, ?_, ?_⟩
  · intro hdis
    rcases hc : env.ctxAlloc with _ | ctx <;>
      rcases hb : env.bioAlloc with _ | bio <;>
      rcases hp : env.platform with _ | _ <;>
      simp only [startTLSNegotiation, hc, hb, hp] at hdis ⊢ <;>
      first
        | (split_ifs at hdis ⊢ <;>
            first
              | exact tlsAfterTrust_fail_cleared _ _ _ (by
                  simp only [List.append_assoc, List.cons_append,
                    List.nil_append] at hdis ⊢
                  rcases hdis with h | h | h | h <;> simp [h])
              | simp_all)
        | simp_all
  · intro hw
    constructor
    · simp [sendCommand, hw, cleanup, handlesCleared]
    · simp [sendCommandWithFeedback, hw, cleanup, handlesCleared]
  · intro hw hto
    simp [sendCommandWithFeedback, hw, Nat.not_lt.mpr hto, cleanup,
      handlesCleared]

/-- An environment where everything up to trust provisioning succeeds
but `BIO_do_connect` fails. -/
def connectFailEnv : TLSEnv :=
  { ctxAlloc := some 1, ctxAllocErr := 0, bioAlloc := some 2, sslHandle := 3,
    platform := Platform.posix, storeOpenOk := true, storeOpenErr := 0,
    defaultVerifyPathsOk := true, preVerifyResult := 0, connectOk := false,
    connectErr := 11, handshakeOk := true, handshakeErr := 0,
    certPresent := true, finalVerifyResult := 0 }

/-- A command environment whose `BIO_puts` fails. -/
def writeFailEnv : CommandEnv :=
  { writeOk := false, writeErr := 13, reads := fun _ => [] }

/-- A command environment that writes fine but never receives data. -/
def noDataEnv : CommandEnv :=
  { writeOk := true, writeErr := 0, reads := fun _ => [] }

/-- Concrete instantiation of `failure_teardown_amended`: a connect
failure, a write failure in each command operation, and a command
timeout all leave every resource released. -/
theorem failure_teardown_amended_witness :
    handlesCleared (startTLSNegotiation connectFailEnv preTLSState).2.1 ∧
    handlesCleared (sendCommand writeFailEnv 7 preTLSState).2.1 ∧
    handlesCleared (sendCommandWithFeedback writeFailEnv 7 9 preTLSState).2.1 ∧
    handlesCleared (sendCommandWithFeedback noDataEnv 7 9 preTLSState).2.1 :=
  ⟨(failure_teardown_amended connectFailEnv writeFailEnv 7 9 preTLSState).1
      (Or.inl (by decide)),
   ((failure_teardown_amended connectFailEnv writeFailEnv 7 9 preTLSState).2.1
      rfl).1,
   ((failure_teardown_amended connectFailEnv writeFailEnv 7 9 preTLSState).2.1
      rfl).2,
   (failure_teardown_amended connectFailEnv noDataEnv 7 9 preTLSState).2.2
      rfl (by decide)⟩

/-- An environment where the handshake succeeds but the server presents
no certificate. -/
def certAbsentEnv : TLSEnv :=
  { ctxAlloc := some 1, ctxAllocErr := 0, bioAlloc := some 2, sslHandle := 3,
    platform := Platform.posix, storeOpenOk := true, storeOpenErr := 0,
    defaultVerifyPathsOk := true, preVerifyResult := 0, connectOk := true,
    connectErr := 0, handshakeOk := true, handshakeErr := 0,
    certPresent := false, finalVerifyResult := 0 }

/-- Concrete instantiation of
`startTLS_success_requires_cert_and_verify`: with no peer certificate
the negotiation returns `GET_CERTIFICATE_ERROR` and all resources are
released. -/
theorem startTLS_success_requires_cert_and_verify_witness :
    (startTLSNegotiation certAbsentEnv preTLSState).1 =
      TLSResult.getCertificateError ∧
    handlesCleared (startTLSNegotiation certAbsentEnv preTLSState).2.1 :=
  (startTLS_success_requires_cert_and_verify certAbsentEnv preTLSState rfl rfl
    ⟨fun _ => rfl, fun _ => rfl⟩ rfl rfl).2.1 rfl

/-- An environment where the Windows certificate store cannot be
opened. -/
def storeFailEnv : TLSEnv :=
  { ctxAlloc := some 1, ctxAllocErr := 0, bioAlloc := some 2, sslHandle := 3,
    platform := Platform.windows, storeOpenOk := false, storeOpenErr := 5,
    defaultVerifyPathsOk := true, preVerifyResult := 0, connectOk := true,
    connectErr := 0, handshakeOk := true, handshakeErr := 0,
    certPresent := true, finalVerifyResult := 0 }

/-- An environment where `SSL_CTX_set_default_verify_paths` fails. -/
def pathsFailEnv : TLSEnv :=
  { ctxAlloc := some 1, ctxAllocErr := 0, bioAlloc := some 2, sslHandle := 3,
    platform := Platform.posix, storeOpenOk := true, storeOpenErr := 0,
    defaultVerifyPathsOk := false, preVerifyResult := 0, connectOk := true,
    connectErr := 0, handshakeOk := true, handshakeErr := 0,
    certPresent := true, finalVerifyResult := 0 }

/-- Concrete instantiation of `trust_failure_prevents_later_stages` on
both platform variants. -/
theorem trust_failure_prevents_later_stages_witness :
    ((startTLSNegotiation storeFailEnv preTLSState).1 =
       TLSResult.winCertOpenSystemStoreError ∧
     noLateStage (startTLSNegotiation storeFailEnv preTLSState).2.2) ∧
    ((startTLSNegotiation pathsFailEnv preTLSState).1 =
       TLSResult.ctxSetDefaultVerifyPathsError ∧
     noLateStage (startTLSNegotiation pathsFailEnv preTLSState).2.2) :=
  ⟨(trust_failure_prevents_later_stages storeFailEnv preTLSState rfl rfl).1
      rfl rfl,
   (trust_failure_prevents_later_stages pathsFailEnv preTLSState rfl rfl).2
      rfl rfl⟩

/-- C3: with a timeout budget of at least one second, a successful write
and no server data on any read attempt, `sendCommandWithFeedback`
performs exactly `mCommandTimeOut` one-second sleep iterations, releases
every resource (context, BIO, SSL handle null and socket reset) and
returns the caller-supplied timeout code. -/
theorem timeout_budget_exact_sleeps (env : CommandEnv) (pErr pTo : Int)
    (s : SecureState) (_hT : 1 ≤ s.mCommandTimeOut) (hw : env.writeOk = true)
    (hr : ∀ i, env.reads i = []) :
    (sendCommandWithFeedback env pErr pTo s).1 = pTo ∧
    (sendCommandWithFeedback env pErr pTo s).2.2.1 = s.mCommandTimeOut ∧
    handlesCleared (sendCommandWithFeedback env pErr pTo s).2.1 := by
  have hpoll : pollRead env.reads s.mCommandTimeOut 0 = s.mCommandTimeOut :=
    pollRead_empty_below env.reads s.mCommandTimeOut 0 (fun i _ => hr i)
      (Nat.zero_le _)
  simp [sendCommandWithFeedback, hw, hpoll, cleanup, handlesCleared]

/-- Concrete instantiation of `timeout_budget_exact_sleeps`: budget 3,
no data ever; three sleeps, teardown, timeout code 9. -/
theorem timeout_budget_exact_sleeps_witness :
    (sendCommandWithFeedback noDataEnv 7 9 preTLSState).1 = 9 ∧
    (sendCommandWithFeedback noDataEnv 7 9 preTLSState).2.2.1 =
      preTLSState.mCommandTimeOut ∧
    handlesCleared (sendCommandWithFeedback noDataEnv 7 9 preTLSState).2.1 :=
  timeout_budget_exact_sleeps noDataEnv 7 9 preTLSState (by decide) rfl
    (fun _ => rfl)

/-- C10: if no read attempt strictly before the timeout budget yields
data, then whatever the read evaluated at the budget boundary returns —
including actual data, and in particular any data available on the very
first read when the budget is `0` — `sendCommandWithFeedback` discards
it: it returns the timeout code, releases every resource, and leaves the
stored last server response unchanged. -/
theorem data_at_budget_boundary_times_out (env : CommandEnv)
    (pErr pTo : Int) (s : SecureState) (hw : env.writeOk = true)
    (hr : ∀ i, i < s.mCommandTimeOut → env.reads i = []) :
    (sendCommandWithFeedback env pErr pTo s).1 = pTo ∧
    handlesCleared (sendCommandWithFeedback env pErr pTo s).2.1 ∧
    (sendCommandWithFeedback env pErr pTo s).2.1.mLastServerResponse =
      s.mLastServerResponse := by
  have hpoll : pollRead env.reads s.mCommandTimeOut 0 = s.mCommandTimeOut :=
    pollRead_empty_below env.reads s.mCommandTimeOut 0 hr (Nat.zero_le _)
  simp [sendCommandWithFeedback, hw, hpoll, cleanup, handlesCleared]

/-- A command environment in which the server answers `"250 OK\r\n"` on
every read attempt. -/
def respEnv : CommandEnv :=
  { writeOk := true, writeErr := 0, reads := fun _ => "250 OK\r\n".data }

/-- A live secure session whose command timeout budget is `0`. -/
def zeroBudgetState : SecureState :=
  { mBio := some 2, mCTX := some 1, mSSL := some 3, mSock := 5,
    mLastServerResponse := "220 ready".data, mLastSocketErrNo := 0,
    mCommandTimeOut := 0 }

/-- Concrete instantiation of `data_at_budget_boundary_times_out`:
budget `0` with `"250 OK\r\n"` available on the very first read still
returns the timeout code `9`, tears everything down, and never stores
the received data. -/
theorem data_at_budget_boundary_times_out_witness :
    (sendCommandWithFeedback respEnv 7 9 zeroBudgetState).1 = 9 ∧
    handlesCleared (sendCommandWithFeedback respEnv 7 9 zeroBudgetState).2.1 ∧
    (sendCommandWithFeedback respEnv 7 9 zeroBudgetState).2.1.mLastServerResponse =
      zeroBudgetState.mLastServerResponse :=
  data_at_budget_boundary_times_out respEnv 7 9 zeroBudgetState rfl
    (fun i hi => absurd hi (Nat.not_lt_zero i))

/-- A live secure session with a 3-second command timeout budget. -/
def liveSessionState : SecureState :=
  { mBio := some 2, mCTX := some 1, mSSL := some 3, mSock := 5,
    mLastServerResponse := [], mLastSocketErrNo := 0, mCommandTimeOut := 3 }

/-- C4 fails as stated: for the raw response `"250 OK\r\n"` the code
overwrites only the last buffer byte (`outbuf[bytes_received-1]`), so
the stored last server response is `"250 OK\r"` — the carriage return
survives — and not `"250 OK"`; the returned status code is `250`. -/
theorem stored_response_keeps_carriage_return_cex :
    (sendCommandWithFeedback respEnv 7 9 liveSessionState).2.1.mLastServerResponse =
      "250 OK\r".data ∧
    "250 OK\r".data ≠ "250 OK".data ∧
    (sendCommandWithFeedback respEnv 7 9 liveSessionState).1 = 250 := by
  decide

/-- C4 as amended: when data arrives before the budget expires and the
raw buffer is a line `L` followed by the terminator `"\r\n"`, the stored
last server response is `L ++ "\r"` — only the final character, the
`'\n'`, is dropped — and the returned value is the return code extracted
from `L ++ "\r"` (for `"250 OK\r\n"`: stored `"250 OK\r"`, code `250`). -/
theorem response_truncated_by_one_char (env : CommandEnv) (pErr pTo : Int)
    (s : SecureState) (L : List Char) (hw : env.writeOk = true)
    (hlt : pollRead env.reads s.mCommandTimeOut 0 < s.mCommandTimeOut)
    (hbuf : env.reads (pollRead env.reads s.mCommandTimeOut 0) =
      L ++ ['\r', '\n']) :
    (sendCommandWithFeedback env pErr pTo s).2.1.mLastServerResponse =
      L ++ ['\r'] ∧
    (sendCommandWithFeedback env pErr pTo s).1 =
      extractReturnCode (L ++ ['\r']) := by
  have hlen : (L ++ ['\r', '\n']).length - 1 = L.length + 1 := by simp
  have htake : (L ++ ['\r', '\n']).take (L.length + 1) = L ++ ['\r'] := by
    rw [List.take_append_eq_append_take, List.take_of_length_le (Nat.le_succ _)]
    congr 1
    rw [Nat.add_sub_cancel_left]
    rfl
  simp [sendCommandWithFeedback, hw, hlt, hbuf, hlen, htake]

/-- Concrete instantiation of `response_truncated_by_one_char` at the
spec's own example `"250 OK\r\n"`. -/
theorem response_truncated_by_one_char_witness :
    (sendCommandWithFeedback respEnv 7 9 liveSessionState).2.1.mLastServerResponse =
      "250 OK".data ++ ['\r'] ∧
    (sendCommandWithFeedback respEnv 7 9 liveSessionState).1 =
      extractReturnCode ("250 OK".data ++ ['\r']) :=
  response_truncated_by_one_char respEnv 7 9 liveSessionState "250 OK".data
    rfl (by decide) (by decide)
